import Mathlib

/-!
Verification of the snaek repository's pixel model and UI components.

The Rust sources are shallowly embedded: `u8`/`u32` machine integers become
`Nat` with explicit `% 256` (resp. truncating casts) where the source
performs a wrapping cast, and fallible operations (division by a possibly
zero denominator, which panics in Rust) return `Option`.
-/

namespace Snaek

/-- `Pixel` from `src/render/pixel.rs`: four 8-bit channels, alpha first. -/
structure Pixel where
  a : Nat
  r : Nat
  g : Nat
  b : Nat
deriving DecidableEq, Repr

/-- `Pixel::new` from `src/render/pixel.rs`. -/
def Pixel.new (a r g b : Nat) : Pixel :=
  ⟨a, r, g, b⟩

/-- Well-formedness of the embedding: every channel fits in a `u8`. -/
def Pixel.wf (p : Pixel) : Prop :=
  p.a ≤ 255 ∧ p.r ≤ 255 ∧ p.g ≤ 255 ∧ p.b ≤ 255

instance (p : Pixel) : Decidable p.wf := by
  unfold Pixel.wf
  infer_instance

/-- `Pixel::from_hex` from `src/render/pixel.rs`: extracts the four bytes of a
`u32` literal, alpha in the top byte. -/
def Pixel.from_hex (hex : Nat) : Pixel :=
  ⟨hex >>> 24 &&& 0xff, hex >>> 16 &&& 0xff, hex >>> 8 &&& 0xff, hex &&& 0xff⟩

/-- `Pixel::to_u32` from `src/render/pixel.rs`: packs the channels with
shifts and bitwise or, alpha in bits 24-31, then red, green, blue. -/
def Pixel.to_u32 (p : Pixel) : Nat :=
  let val := p.a <<< 24
  let val := val ||| p.r <<< 16
  let val := val ||| p.g <<< 8
  let val := val ||| p.b
  val

/-- `impl Add for Pixel` from `src/render/pixel.rs`: plain `+=` on each `u8`
channel. Rust's release-mode overflow semantics is two's-complement
wrapping, embedded here as `% 256` (in debug builds the overflow panics). -/
def Pixel.add (p q : Pixel) : Pixel :=
  ⟨(p.a + q.a) % 256, (p.r + q.r) % 256, (p.g + q.g) % 256, (p.b + q.b) % 256⟩

/-- `rgb_a` from `src/render/pixel.rs`: takes the RGB of the first pixel and
the alpha of the second. -/
def rgb_a (rgb : Pixel) (a : Pixel) : Pixel :=
  { rgb with a := a.a }

namespace alphacomp

/-- `alphacomp::over` from `src/render/pixel.rs`. All arithmetic happens in
`u32` (no overflow is possible for `u8` inputs); the final `as u8` casts are
embedded as `% 256`. The channel divisions `/ a` panic in Rust when the
computed alpha `a` is zero, embedded as `none`. -/
def over (pixa pixb : Pixel) : Option Pixel :=
  let a := (pixa.a + pixb.a * (255 - pixa.a)) % 256
  if a = 0 then none
  else
    some
      ⟨a,
        (pixa.r + pixb.r * (255 - pixa.a)) / a % 256,
        (pixa.g + pixb.g * (255 - pixa.a)) / a % 256,
        (pixa.b + pixb.b * (255 - pixa.a)) / a % 256⟩

/-- `u8::saturating_add`, used by `alphacomp::add`. -/
def saturating_add (x y : Nat) : Nat :=
  min (x + y) 255

/-- `alphacomp::add` from `src/render/pixel.rs`: per-channel saturating sum. -/
def add (pixa pixb : Pixel) : Pixel :=
  ⟨saturating_add pixa.a pixb.a,
    saturating_add pixa.r pixb.r,
    saturating_add pixa.g pixb.g,
    saturating_add pixa.b pixb.b⟩

end alphacomp

/-- C1: the claim states that `alphacomp::over` is defined when both input
alphas are zero and returns the fully transparent color. In the code, the
computed result alpha is `0 + 0 * 255 = 0` and the three channel divisions
divide by it, which panics in Rust (embedded as `none`): the special case
required by the spec is absent, so `over` faults instead of returning
transparent. -/
theorem over_faults_when_both_alphas_zero :
    alphacomp.over ⟨0, 0, 0, 0⟩ ⟨0, 0, 0, 0⟩ = none ∧
      alphacomp.over ⟨0, 0, 0, 0⟩ ⟨0, 0, 0, 0⟩ ≠ some ⟨0, 0, 0, 0⟩ := by
  decide

/-- C2: the claim states `over(A, B) = A` whenever `B` is fully transparent.
For `A = {a:255, r:100, g:0, b:0}` and `B = {a:0, r:0, g:0, b:0}` the code
computes the red channel as `(100 + 0 * 0) / 255 = 0`, so the result is
`{a:255, r:0, g:0, b:0} ≠ A`: the identity fails on the code. -/
theorem over_transparent_b_not_identity :
    alphacomp.over ⟨255, 100, 0, 0⟩ ⟨0, 0, 0, 0⟩ = some ⟨255, 0, 0, 0⟩ ∧
      alphacomp.over ⟨255, 100, 0, 0⟩ ⟨0, 0, 0, 0⟩ ≠ some ⟨255, 100, 0, 0⟩ := by
  decide

/-- C4 counterexample: `impl Add for Pixel` is not saturating. At
`A = B = {200, 200, 200, 200}` each channel of `A + B` is
`(200 + 200) % 256 = 144`, not `min(255, 400) = 255`. -/
theorem pixel_add_not_saturating :
    Pixel.add ⟨200, 200, 200, 200⟩ ⟨200, 200, 200, 200⟩ = ⟨144, 144, 144, 144⟩ ∧
      Pixel.add ⟨200, 200, 200, 200⟩ ⟨200, 200, 200, 200⟩ ≠
        ⟨min 255 (200 + 200), min 255 (200 + 200), min 255 (200 + 200),
          min 255 (200 + 200)⟩ := by
  decide

/-- C4 (amended): `impl Add for Pixel` wraps each channel modulo 256 (never
saturating; in debug builds the overflow would panic), while the saturating
per-channel sum `min(255, A.c + B.c)` is provided by `alphacomp::add`. -/
theorem pixel_add_wraps_and_alphacomp_add_saturates :
    ∀ p q : Pixel,
      Pixel.add p q =
          ⟨(p.a + q.a) % 256, (p.r + q.r) % 256, (p.g + q.g) % 256,
            (p.b + q.b) % 256⟩ ∧
        alphacomp.add p q =
          ⟨min 255 (p.a + q.a), min 255 (p.r + q.r), min 255 (p.g + q.g),
            min 255 (p.b + q.b)⟩ := by
  intro p q
  refine ⟨rfl, ?_⟩
  simp [alphacomp.add, alphacomp.saturating_add, Nat.min_comm]

/-- C5: every channel of `alphacomp::add` dominates the corresponding
channels of both inputs, and a channel whose true sum exceeds 255 saturates
to exactly 255. -/
theorem alphacomp_add_ge_max :
    ∀ p q : Pixel, p.wf → q.wf →
      (max p.a q.a ≤ (alphacomp.add p q).a ∧
          (255 < p.a + q.a → (alphacomp.add p q).a = 255)) ∧
        (max p.r q.r ≤ (alphacomp.add p q).r ∧
          (255 < p.r + q.r → (alphacomp.add p q).r = 255)) ∧
        (max p.g q.g ≤ (alphacomp.add p q).g ∧
          (255 < p.g + q.g → (alphacomp.add p q).g = 255)) ∧
        (max p.b q.b ≤ (alphacomp.add p q).b ∧
          (255 < p.b + q.b → (alphacomp.add p q).b = 255)) := by
  intro p q hp hq
  obtain ⟨ha, hr, hg, hb⟩ := hp
  obtain ⟨ha', hr', hg', hb'⟩ := hq
  simp only [alphacomp.add, alphacomp.saturating_add]
  omega

/-- C5 witness: the dominance property evaluated at two concrete pixels. -/
theorem alphacomp_add_ge_max_witness :
    (max 1 255 ≤ (alphacomp.add ⟨1, 2, 3, 4⟩ ⟨255, 254, 3, 100⟩).a ∧
        (255 < 1 + 255 → (alphacomp.add ⟨1, 2, 3, 4⟩ ⟨255, 254, 3, 100⟩).a = 255)) ∧
      (max 2 254 ≤ (alphacomp.add ⟨1, 2, 3, 4⟩ ⟨255, 254, 3, 100⟩).r ∧
          (255 < 2 + 254 → (alphacomp.add ⟨1, 2, 3, 4⟩ ⟨255, 254, 3, 100⟩).r = 255)) ∧
        (max 3 3 ≤ (alphacomp.add ⟨1, 2, 3, 4⟩ ⟨255, 254, 3, 100⟩).g ∧
            (255 < 3 + 3 → (alphacomp.add ⟨1, 2, 3, 4⟩ ⟨255, 254, 3, 100⟩).g = 255)) ∧
          (max 4 100 ≤ (alphacomp.add ⟨1, 2, 3, 4⟩ ⟨255, 254, 3, 100⟩).b ∧
            (255 < 4 + 100 → (alphacomp.add ⟨1, 2, 3, 4⟩ ⟨255, 254, 3, 100⟩).b = 255)) :=
  alphacomp_add_ge_max ⟨1, 2, 3, 4⟩ ⟨255, 254, 3, 100⟩ (by decide) (by decide)

/-- C6: `rgb_a(m, s)` keeps the red, green and blue channels of the mask `m`
and takes the alpha channel of the sprite pixel `s`. -/
theorem rgb_a_spec :
    ∀ m s : Pixel,
      (rgb_a m s).r = m.r ∧ (rgb_a m s).g = m.g ∧ (rgb_a m s).b = m.b ∧
        (rgb_a m s).a = s.a := by
  intro m s
  exact ⟨rfl, rfl, rfl, rfl⟩

/-- The per-frame steps of the game loop in `src/main.rs` (`game`). -/
inductive FrameStep where
  | declareWidgets
  | solveLayout
  | drawWidgets
  | freeUntouchedWidgets
  | react
  | updateGame
  | rendererDraw
  | presentBuffer
deriving DecidableEq, Repr

/-- The order of the per-frame pipeline in `src/main.rs` (`game`): the widget
declarations (lines 122-332), then `ui.solve_layout()`, `ui.draw_widgets(..)`,
`ui.free_untouched_widgets()`, `ui.react(&mouse)` (lines 333-336), then the
snake-game update, `renderer.draw(..)` and `window.update_with_buffer(..)`. -/
def framePipeline : List FrameStep :=
  [FrameStep.declareWidgets, FrameStep.solveLayout, FrameStep.drawWidgets,
    FrameStep.freeUntouchedWidgets, FrameStep.react, FrameStep.updateGame,
    FrameStep.rendererDraw, FrameStep.presentBuffer]

/-- C3 counterexample: the claim states that `react` runs before
`free_untouched_widgets` within a frame; in `game` it is the other way
around (`free_untouched_widgets` is called on line 335, `react` on 336). -/
theorem react_not_before_free_untouched :
    ¬ (framePipeline.indexOf FrameStep.react <
        framePipeline.indexOf FrameStep.freeUntouchedWidgets) := by
  decide

/-- C3 (amended): within every frame the pipeline runs the widget
declarations, then layout solving, then draw-command emission, then the
freeing of untouched widgets, and only then the reaction pass; both of the
last two steps occur in the frame. -/
theorem pipeline_frees_before_react :
    framePipeline.indexOf FrameStep.declareWidgets <
        framePipeline.indexOf FrameStep.solveLayout ∧
      framePipeline.indexOf FrameStep.solveLayout <
          framePipeline.indexOf FrameStep.drawWidgets ∧
        framePipeline.indexOf FrameStep.drawWidgets <
            framePipeline.indexOf FrameStep.freeUntouchedWidgets ∧
          framePipeline.indexOf FrameStep.freeUntouchedWidgets <
              framePipeline.indexOf FrameStep.react ∧
            framePipeline.indexOf FrameStep.react < framePipeline.length := by
  decide

/-- `u32::from_le_bytes` on four byte values: the first byte is the least
significant. -/
def u32_from_le_bytes (b0 b1 b2 b3 : Nat) : Nat :=
  b0 + b1 * 2 ^ 8 + b2 * 2 ^ 16 + b3 * 2 ^ 24

/-- The per-pixel packing performed by `load_png_from_memory` in
`src/main.rs`: the decoded RGBA bytes `[r, g, b, a]` are stored as
`u32::from_le_bytes([b, g, r, a])`. -/
def load_png_pixel (r g b a : Nat) : Nat :=
  u32_from_le_bytes b g r a

/-- Bitwise or is addition when the high part is a multiple of `2 ^ k` and
the low part fits in `k` bits. -/
theorem lor_eq_add_of_dvd {k x y : Nat} (hx : 2 ^ k ∣ x) (hy : y < 2 ^ k) :
    x ||| y = x + y := by
  obtain ⟨c, rfl⟩ := hx
  exact (Nat.mul_add_lt_is_or hy c).symm

/-- C7: for every decoded RGBA pixel, `load_png_from_memory` stores exactly
the packed value `Pixel::new(a, r, g, b).to_u32()`: alpha in bits 24-31,
red in 16-23, green in 8-15, blue in 0-7. -/
theorem load_png_pixel_packs_argb :
    ∀ r g b a : Nat, r ≤ 255 → g ≤ 255 → b ≤ 255 → a ≤ 255 →
      load_png_pixel r g b a = (Pixel.new a r g b).to_u32 := by
  intro r g b a hr hg hb ha
  show b + g * 2 ^ 8 + r * 2 ^ 16 + a * 2 ^ 24 =
    ((a <<< 24 ||| r <<< 16) ||| g <<< 8) ||| b
  have h8 : (2 : Nat) ^ 8 = 256 := by norm_num
  have h16 : (2 : Nat) ^ 16 = 65536 := by norm_num
  have h24 : (2 : Nat) ^ 24 = 16777216 := by norm_num
  rw [Nat.shiftLeft_eq, Nat.shiftLeft_eq, Nat.shiftLeft_eq]
  rw [lor_eq_add_of_dvd (k := 24) (x := a * 2 ^ 24) (y := r * 2 ^ 16)
      ⟨a, by ring⟩ (by rw [h16, h24]; omega)]
  rw [lor_eq_add_of_dvd (k := 16) (x := a * 2 ^ 24 + r * 2 ^ 16)
      (y := g * 2 ^ 8) ⟨a * 2 ^ 8 + r, by rw [h8, h16, h24]; ring⟩
      (by rw [h8, h16]; omega)]
  rw [lor_eq_add_of_dvd (k := 8)
      (x := a * 2 ^ 24 + r * 2 ^ 16 + g * 2 ^ 8) (y := b)
      ⟨a * 2 ^ 16 + r * 2 ^ 8 + g, by rw [h8, h16, h24]; ring⟩
      (by rw [h8]; omega)]
  ring

/-- C7 witness: the packing equation at the concrete byte quadruple
`r = 1, g = 2, b = 3, a = 4`, whose packed value is `67174915`. -/
theorem load_png_pixel_packs_argb_witness :
    load_png_pixel 1 2 3 4 = (Pixel.new 4 1 2 3).to_u32 ∧
      load_png_pixel 1 2 3 4 = 67174915 :=
  ⟨load_png_pixel_packs_argb 1 2 3 4 (by decide) (by decide) (by decide)
      (by decide),
    by decide⟩

/-- `big_3digits_display` from `src/ui/components.rs`, reduced to the data
the claim is about: for each of the three holder widgets, in build order
(place index 2 = hundreds, 1 = tens, 0 = units), whether a digit sprite was
attached inside it and which digit value indexes `digit_sprites`. The
`after_first_digit` flag and the attach condition `after_first_digit || d > 0`
are transcribed from the loop body. -/
def big_3digits_display (n : Nat) : List (Nat × Bool × Nat) :=
  let step := fun (st : Bool × List (Nat × Bool × Nat)) (pd : Nat × Nat) =>
    if st.1 || decide (0 < pd.2) then
      (true, st.2 ++ [(pd.1, true, pd.2)])
    else
      (st.1, st.2 ++ [(pd.1, false, pd.2)])
  ([(2, n / 100 % 10), (1, n / 10 % 10), (0, n % 10)].foldl step (false, [])).2

/-- C8: `big_3digits_display` always builds exactly the three holders for
the hundreds, tens and units digits of `n mod 1000`, left to right, and a
digit sprite is attached in a holder exactly when that place's digit is
nonzero or a more significant place's digit was already displayed; when
`n mod 1000 = 0` no holder receives a digit sprite. -/
theorem big_3digits_display_spec :
    ∀ n : Nat,
      (big_3digits_display n).length = 3 ∧
        big_3digits_display n =
            [(2, decide (0 < n / 100 % 10), n / 100 % 10),
              (1, decide (0 < n / 100 % 10) || decide (0 < n / 10 % 10),
                n / 10 % 10),
              (0,
                decide (0 < n / 100 % 10) || decide (0 < n / 10 % 10) ||
                  decide (0 < n % 10),
                n % 10)] ∧
          (n % 1000 = 0 → ∀ x ∈ big_3digits_display n, x.2.1 = false) := by
  intro n
  have hform :
      big_3digits_display n =
        [(2, decide (0 < n / 100 % 10), n / 100 % 10),
          (1, decide (0 < n / 100 % 10) || decide (0 < n / 10 % 10),
            n / 10 % 10),
          (0,
            decide (0 < n / 100 % 10) || decide (0 < n / 10 % 10) ||
              decide (0 < n % 10),
            n % 10)] := by
    rcases eq_or_ne (n / 100 % 10) 0 with h2 | h2 <;>
      rcases eq_or_ne (n / 10 % 10) 0 with h1 | h1 <;>
        rcases eq_or_ne (n % 10) 0 with h0 | h0 <;>
          simp [big_3digits_display, h2, h1, h0, Nat.pos_iff_ne_zero]
  refine ⟨by rw [hform]; rfl, hform, ?_⟩
  intro hz x hx
  have e2 : n / 100 % 10 = 0 := by omega
  have e1 : n / 10 % 10 = 0 := by omega
  have e0 : n % 10 = 0 := by omega
  rw [hform, e2, e1, e0] at hx
  simp only [List.mem_cons, List.not_mem_nil, or_false] at hx
  rcases hx with h | h | h <;> simp [h]

/-- C8 witness: the shape of the display at `n = 0` (all three holders
present, no digit sprite attached anywhere) and at `n = 105`. -/
theorem big_3digits_display_spec_witness :
    ((big_3digits_display 0).length = 3 ∧
        (∀ x ∈ big_3digits_display 0, x.2.1 = false)) ∧
      big_3digits_display 105 =
        [(2, true, 1), (1, true, 0), (0, true, 5)] :=
  ⟨⟨(big_3digits_display_spec 0).1,
      (big_3digits_display_spec 0).2.2 (by decide)⟩,
    by decide⟩

/-- `BRIGHT_GREEN` from `time_display` in `src/ui/components.rs`. -/
def BRIGHT_GREEN : Pixel := Pixel.from_hex 0xff99e550

/-- `DIMMED_GREEN` from `time_display` in `src/ui/components.rs`. -/
def DIMMED_GREEN : Pixel := Pixel.from_hex 0xff64a328

/-- A leaf widget built by `time_display`: a digit sprite (the digit value
indexes `digit_sprites`) or the colon sprite, each with its color mask. -/
inductive TimeItem where
  | digit (d : Nat) (mask : Pixel)
  | colon (mask : Pixel)
deriving DecidableEq, Repr

/-- `time_display` from `src/ui/components.rs`, reduced to the sequence of
digit/colon children added to the display, in build order. `Duration` is
embedded as a total number of nanoseconds `ns`, so `as_secs()` is
`ns / 1000000000` and `as_millis()` is `ns / 1000000`; the arithmetic on
`seconds`, `minutes` and `millis` is transcribed from the source. -/
def time_display (ns : Nat) : List TimeItem :=
  let seconds := ns / 1000000000
  let minutes := seconds / 60 % 60
  let seconds := seconds % 60
  let millis := ns / 1000000 % 1000
  ([(1, minutes / 10 % 10), (0, minutes % 10)].map fun pd =>
      TimeItem.digit pd.2 BRIGHT_GREEN) ++
    [TimeItem.colon BRIGHT_GREEN] ++
      ([(1, seconds / 10 % 10), (0, seconds % 10)].map fun pd =>
          TimeItem.digit pd.2 BRIGHT_GREEN) ++
        [TimeItem.colon DIMMED_GREEN] ++
          ([(2, millis / 100 % 10), (1, millis / 10 % 10), (0, millis % 10)].map
            fun pd => TimeItem.digit pd.2 DIMMED_GREEN)

/-- C9: for every duration (`ns` nanoseconds), `time_display` renders
exactly two minute digits encoding `as_secs / 60 mod 60`, a colon, two
second digits encoding `as_secs mod 60`, a colon, and three millisecond
digits encoding `as_millis mod 1000`, with no leading-zero suppression;
whole hours are discarded by the `mod 60` on the minutes. -/
theorem time_display_spec :
    ∀ ns : Nat,
      time_display ns =
        [TimeItem.digit (ns / 1000000000 / 60 % 60 / 10) BRIGHT_GREEN,
          TimeItem.digit (ns / 1000000000 / 60 % 60 % 10) BRIGHT_GREEN,
          TimeItem.colon BRIGHT_GREEN,
          TimeItem.digit (ns / 1000000000 % 60 / 10) BRIGHT_GREEN,
          TimeItem.digit (ns / 1000000000 % 60 % 10) BRIGHT_GREEN,
          TimeItem.colon DIMMED_GREEN,
          TimeItem.digit (ns / 1000000 % 1000 / 100) DIMMED_GREEN,
          TimeItem.digit (ns / 1000000 % 1000 / 10 % 10) DIMMED_GREEN,
          TimeItem.digit (ns / 1000000 % 1000 % 10) DIMMED_GREEN] := by
  intro ns
  have hm : ns / 1000000000 / 60 % 60 / 10 % 10 =
      ns / 1000000000 / 60 % 60 / 10 := by omega
  have hs : ns / 1000000000 % 60 / 10 % 10 = ns / 1000000000 % 60 / 10 := by
    omega
  have hms : ns / 1000000 % 1000 / 100 % 10 = ns / 1000000 % 1000 / 100 := by
    omega
  simp only [time_display, List.map_cons, List.map_nil, List.cons_append,
    List.nil_append, List.singleton_append]
  rw [hm, hs, hms]

/-!
Modelled from the spec: the `WidgetFlags` bitflag constants used by the
widget property bundle (draw-background / draw-border / draw-sprite /
draw-text / can-hover / can-click / can-focus). Their declaration is not
under `src/`; the spec only requires them to be independent flag bits, so
they are modelled as distinct powers of two.
-/

namespace WidgetFlags

def DRAW_BACKGROUND : Nat := 1
def DRAW_BORDER : Nat := 2
def DRAW_SPRITE : Nat := 4
def DRAW_TEXT : Nat := 8
def CAN_HOVER : Nat := 16
def CAN_CLICK : Nat := 32
def CAN_FOCUS : Nat := 64

end WidgetFlags

/-- Modelled from the spec: the declared property bundle of a widget
(spec section 3, "Widget"): key, flags, colors, border width, size mode,
padding, layout direction+gap, anchor/origin pair, draw offset, sprite and
text references, composition operator, mask, rotation and fixed position.
The `WidgetProps` struct itself is declared outside `src/`; the fields are
taken from the spec and from their use in `src/main.rs` and
`src/ui/components.rs`, with opaque payload types embedded as `Nat`. -/
structure WidgetProps where
  key : Nat
  flags : Nat
  color : Pixel
  border_color : Pixel
  border_width : Nat
  size : Nat × Nat
  padding : Nat × Nat × Nat × Nat
  layout : Nat × Nat
  anchor : Nat
  origin : Nat
  draw_offset : Int × Int
  sprite : Option Nat
  text : Option Nat
  acf : Option Nat
  mask : Option Pixel
  rotate : Nat
  pos : Int × Int
deriving DecidableEq, Repr

/-- Modelled from the spec: the `with_flags` builder setter replaces the
`flags` field of the property bundle and leaves every other field alone. -/
def WidgetProps.with_flags (props : WidgetProps) (flags : Nat) : WidgetProps :=
  { props with flags := flags }

/-- The property transformation `btn_icon` applies to its caller-supplied
`props` before building the button widget (`src/ui/components.rs`,
lines 57-60): the declared flags are the caller's flags or-ed with
`CAN_FOCUS`, `CAN_HOVER`, `CAN_CLICK` and `DRAW_BACKGROUND`. -/
def btn_icon_button_props (props : WidgetProps) : WidgetProps :=
  let prev_flags := props.flags
  props.with_flags
    (prev_flags ||| WidgetFlags.CAN_FOCUS ||| WidgetFlags.CAN_HOVER |||
      WidgetFlags.CAN_CLICK ||| WidgetFlags.DRAW_BACKGROUND)

/-- C10: the button built by `btn_icon` carries exactly the caller's flags
or-ed with `CAN_FOCUS`, `CAN_HOVER`, `CAN_CLICK` and `DRAW_BACKGROUND`;
every flag bit the caller passed in is still set, and every other field of
the property bundle is unchanged by the flag change. -/
theorem btn_icon_flags_spec :
    ∀ props : WidgetProps,
      (btn_icon_button_props props).flags =
          props.flags ||| WidgetFlags.CAN_FOCUS ||| WidgetFlags.CAN_HOVER |||
            WidgetFlags.CAN_CLICK ||| WidgetFlags.DRAW_BACKGROUND ∧
        (∀ i, props.flags.testBit i = true →
            (btn_icon_button_props props).flags.testBit i = true) ∧
          (btn_icon_button_props props).key = props.key ∧
          (btn_icon_button_props props).color = props.color ∧
          (btn_icon_button_props props).border_color = props.border_color ∧
          (btn_icon_button_props props).border_width = props.border_width ∧
          (btn_icon_button_props props).size = props.size ∧
          (btn_icon_button_props props).padding = props.padding ∧
          (btn_icon_button_props props).layout = props.layout ∧
          (btn_icon_button_props props).anchor = props.anchor ∧
          (btn_icon_button_props props).origin = props.origin ∧
          (btn_icon_button_props props).draw_offset = props.draw_offset ∧
          (btn_icon_button_props props).sprite = props.sprite ∧
          (btn_icon_button_props props).text = props.text ∧
          (btn_icon_button_props props).acf = props.acf ∧
          (btn_icon_button_props props).mask = props.mask ∧
          (btn_icon_button_props props).rotate = props.rotate ∧
          (btn_icon_button_props props).pos = props.pos := by
  intro props
  refine ⟨rfl, ?_, rfl, rfl, rfl, rfl, rfl, rfl, rfl, rfl, rfl, rfl, rfl,
    rfl, rfl, rfl, rfl, rfl⟩
  intro i h
  simp [btn_icon_button_props, WidgetProps.with_flags, Nat.testBit_or, h]

/-- A concrete property bundle used to witness the `btn_icon` theorem:
its flags are `DRAW_BORDER`, whose bit index is 1. -/
def sampleProps : WidgetProps :=
  ⟨7, WidgetFlags.DRAW_BORDER, ⟨1, 2, 3, 4⟩, ⟨5, 6, 7, 8⟩, 1, (9, 9),
    (1, 2, 3, 4), (0, 2), 3, 4, (1, -1), some 5, none, some 0, none, 0,
    (0, 0)⟩

/-- C10 witness: the `btn_icon` flag property evaluated on `sampleProps`,
with the caller's `DRAW_BORDER` bit (index 1) discharged concretely. -/
theorem btn_icon_flags_spec_witness :
    (btn_icon_button_props sampleProps).flags =
        sampleProps.flags ||| WidgetFlags.CAN_FOCUS ||| WidgetFlags.CAN_HOVER |||
          WidgetFlags.CAN_CLICK ||| WidgetFlags.DRAW_BACKGROUND ∧
      (btn_icon_button_props sampleProps).flags.testBit 1 = true ∧
        (btn_icon_button_props sampleProps).key = sampleProps.key ∧
          (btn_icon_button_props sampleProps).sprite = sampleProps.sprite :=
  ⟨(btn_icon_flags_spec sampleProps).1,
    (btn_icon_flags_spec sampleProps).2.1 1 (by decide),
    (btn_icon_flags_spec sampleProps).2.2.1,
    (btn_icon_flags_spec sampleProps).2.2.2.2.2.2.2.2.2.2.2.2.1⟩

end Snaek
